import Mathlib

/-!
Verification of the mock hotel-reservation API (`src/app.py`).

Shallow embedding conventions:
* Calendar dates are modelled as `Nat` day ordinals.  `parse_date` in the
  source normalises every accepted ISO string to a naive midnight datetime,
  and all date handling compares those normalised values, so a day ordinal
  captures exactly the information the program uses.
* Timestamps (`created_at`, `updated_at`) are opaque `String`s produced by
  `now_iso()`; the embedding passes the current timestamp in as an argument.
* Stored reservations are the `mapped` dictionaries built by
  `create_reservation_logic`; every key of that literal is always present,
  so `dict.get(key, default)` on a stored record returns the stored value
  (possibly `None`, modelled as `Option`), never the default.
* `float` amounts are modelled as `Rat`; the program only stores and copies
  them, it never computes with them.
* Audit-log and webhook appends are side channels that do not influence any
  result or any store, so they are not part of the state.
* HTTP error details are modelled by an error code only; the human-readable
  message strings do not affect behaviour.
-/

namespace MockApi

/-- JSON-style field values, used to model the key/value shape of the
dictionaries the API stores and returns. -/
inductive JVal where
  | jnull : JVal
  | jstr : String → JVal
  | jnat : Nat → JVal
  | jint : Int → JVal
  | jbool : Bool → JVal
  | jrat : Rat → JVal
deriving DecidableEq, Repr

/-- `ROOM_INVENTORY` from the source: room type → total unit count. -/
def ROOM_INVENTORY : List (String × Nat) :=
  [("single", 5), ("double", 3), ("suite", 2)]

/-- One entry of the global `bookings` list: the `mapped` dictionary built in
`create_reservation_logic`.  Field names follow the dictionary keys. -/
structure Booking where
  id : String
  reservation_id : String
  profile_id : Option String
  property_id : String
  guest_name : Option String
  room_type : String
  check_in : Nat
  check_out : Nat
  status : Option String
  rate_plan_code : Option String
  source_code : Option String
  market_code : Option String
  created_at : String
  updated_at : String
  guaranteed : Bool
  guarantee_type : Option String
  total_amount : Option Rat
  currency : Option String
  guest_count : Int
deriving DecidableEq, Repr

/-- The validated `Reservation` pydantic model (field defaults already
applied, validators already passed). -/
structure Reservation where
  reservation_id : Option String
  profile_id : Option String
  property_id : String
  guest_name : Option String
  room_type : String
  rate_plan_code : Option String
  source_code : Option String
  market_code : Option String
  arrival_date : Nat
  departure_date : Nat
  guaranteed : Bool
  guarantee_type : Option String
  currency : Option String
  total_amount : Option Rat
  guest_count : Int
  status : Option String
  created_at : Option String
  updated_at : Option String
deriving DecidableEq, Repr

/-- A raw reservation request body, distinguishing an absent field (`none`)
from an explicitly null one (`some none`), as the JSON body does before
pydantic applies field defaults.  Required fields (`property_id`,
`room_type`, the two dates) must be present for the body to reach
validation at all. -/
structure ReservationReq where
  reservation_id : Option (Option String)
  profile_id : Option (Option String)
  property_id : String
  guest_name : Option (Option String)
  room_type : String
  rate_plan_code : Option (Option String)
  source_code : Option (Option String)
  market_code : Option (Option String)
  arrival_date : Nat
  departure_date : Nat
  guaranteed : Option Bool
  guarantee_type : Option (Option String)
  currency : Option (Option String)
  total_amount : Option (Option Rat)
  guest_count : Option Int
  status : Option (Option String)
  created_at : Option (Option String)
  updated_at : Option (Option String)
deriving DecidableEq, Repr

/-- The `Reservation` model validators: `validate_room_type` requires the
room type to be a key of `ROOM_INVENTORY`, and `departure_after_arrival`
requires the departure day to be strictly after the arrival day. -/
def validReservation (r : Reservation) : Bool :=
  (ROOM_INVENTORY.lookup r.room_type).isSome && decide (r.arrival_date < r.departure_date)

/-- Pydantic parsing of a reservation request: apply each field's declared
default (absent `status` becomes `"reserved"`, absent `currency` becomes
`"USD"`, absent `guaranteed` becomes `false`, absent `guest_count` becomes
`1`, plain optional fields become null), then run the validators. -/
def parseReservation (req : ReservationReq) : Option Reservation :=
  let r : Reservation :=
    { reservation_id := req.reservation_id.getD none
      profile_id := req.profile_id.getD none
      property_id := req.property_id
      guest_name := req.guest_name.getD none
      room_type := req.room_type
      rate_plan_code := req.rate_plan_code.getD none
      source_code := req.source_code.getD none
      market_code := req.market_code.getD none
      arrival_date := req.arrival_date
      departure_date := req.departure_date
      guaranteed := req.guaranteed.getD false
      guarantee_type := req.guarantee_type.getD none
      currency := req.currency.getD (some "USD")
      total_amount := req.total_amount.getD none
      guest_count := req.guest_count.getD 1
      status := req.status.getD (some "reserved")
      created_at := req.created_at.getD none
      updated_at := req.updated_at.getD none }
  if validReservation r then some r else none

/-- Python truthiness of an optional string: `None` and `""` are falsy. -/
def pyTruthy : Option String → Bool
  | none => false
  | some s => !(s == "")

/-- Python `x or y` on optional strings. -/
def pyOrStr (x y : Option String) : Option String :=
  if pyTruthy x then x else y

/-- The half-open overlap test both availability scans use:
`not (check_out_date <= b_check_in or check_in_date >= b_check_out)`. -/
def rangesOverlap (check_in check_out b_check_in b_check_out : Nat) : Bool :=
  !(decide (check_out ≤ b_check_in) || decide (check_in ≥ b_check_out))

/-- Membership of a stored status in the consuming-status list
`["booked", "checked_in", "reserved", "guaranteed"]`; a null status is not
in the list. -/
def statusInConsuming : Option String → Bool
  | some st => ["booked", "checked_in", "reserved", "guaranteed"].contains st
  | none => false

/-- The two status filters of the availability scans combined: the status
must be in the consuming list, and when `include_tentatives` is false a
`"reserved"` status with `guaranteed == False` is skipped. -/
def statusConsumes (include_tentatives : Bool) (status : Option String) (guaranteed : Bool) : Bool :=
  statusInConsuming status &&
    !(!include_tentatives && status == some "reserved" && !guaranteed)

/-- The exclusion test in `check_room_availability`:
`if exclude_id and (b.get("id") == exclude_id or b.get("reservation_id") == exclude_id)`.
An empty exclude id is falsy in Python and excludes nothing. -/
def excludedBy (exclude_id : Option String) (b : Booking) : Bool :=
  match exclude_id with
  | none => false
  | some e => !(e == "") && (b.id == e || b.reservation_id == e)

/-- Whether one booking is counted by the `check_room_availability` loop
(the guard used by create and update). -/
def guardCounts (room_type : String) (check_in check_out : Nat)
    (exclude_id : Option String) (include_tentatives : Bool) (b : Booking) : Bool :=
  b.room_type == room_type && !excludedBy exclude_id b &&
    statusConsumes include_tentatives b.status b.guaranteed &&
    rangesOverlap check_in check_out b.check_in b.check_out

/-- `check_room_availability`: true iff the count of consuming overlapping
reservations is strictly below `ROOM_INVENTORY.get(room_type, 0)`. -/
def checkRoomAvailability (s : List Booking) (room_type : String)
    (check_in check_out : Nat) (exclude_id : Option String)
    (include_tentatives : Bool) : Bool :=
  decide (s.countP (guardCounts room_type check_in check_out exclude_id include_tentatives)
    < (ROOM_INVENTORY.lookup room_type).getD 0)

/-- Whether one booking is counted by the `get_availability` endpoint loop
(same filters as the guard, with no exclusion). -/
def availCounts (room_type : String) (check_in check_out : Nat)
    (include_tentatives : Bool) (b : Booking) : Bool :=
  b.room_type == room_type &&
    statusConsumes include_tentatives b.status b.guaranteed &&
    rangesOverlap check_in check_out b.check_in b.check_out

/-- The `rooms_available` mapping computed by `get_availability`.  `Nat`
subtraction truncates at zero, which is the source's `max(0, total - booked)`. -/
def getAvailability (s : List Booking) (check_in check_out : Nat)
    (include_tentatives : Bool) : List (String × Nat) :=
  ROOM_INVENTORY.map (fun rt =>
    (rt.1, rt.2 - s.countP (availCounts rt.1 check_in check_out include_tentatives)))

/-- Error outcomes of the API operations, with their HTTP status codes.
The human-readable detail strings carried by `HTTPException` are omitted:
they never influence behaviour. -/
inductive ApiErr where
  | conflict
  | notFound
  | invalidState
deriving DecidableEq, Repr

/-- HTTP status code of each error. -/
def ApiErr.statusCode : ApiErr → Nat
  | .conflict => 409
  | .notFound => 404
  | .invalidState => 400

/-- The id match used by `find_reservation_by_id` and the update/delete
loops: either exposed alias may match. -/
def matchesId (res_id : String) (b : Booking) : Bool :=
  b.id == res_id || b.reservation_id == res_id

/-- `find_reservation_by_id`: first booking matching either id alias. -/
def findReservationById (s : List Booking) (res_id : String) : Option Booking :=
  s.find? (matchesId res_id)

/-- Replace the first element satisfying `p` (in-place mutation of the found
list element, as the Python loops do). -/
def replaceFirst (p : α → Bool) (x : α) : List α → List α
  | [] => []
  | a :: l => if p a then x :: l else a :: replaceFirst p x l

/-- Remove the first element satisfying `p` (`bookings.pop(i)` at the first
matching index). -/
def removeFirst (p : α → Bool) : List α → List α
  | [] => []
  | a :: l => if p a then l else a :: removeFirst p l

/-- The `mapped` dictionary built by `create_reservation_logic`.  The
source's `r.get("status", "reserved")` reads the dumped model, whose
`status` key is always present (possibly null), so it evaluates to the
parsed status as-is. -/
def mappedReservation (rid now : String) (r : Reservation) : Booking :=
  { id := rid
    reservation_id := rid
    profile_id := r.profile_id
    property_id := r.property_id
    guest_name := r.guest_name
    room_type := r.room_type
    check_in := r.arrival_date
    check_out := r.departure_date
    status := r.status
    rate_plan_code := r.rate_plan_code
    source_code := r.source_code
    market_code := r.market_code
    created_at := now
    updated_at := now
    guaranteed := r.guaranteed
    guarantee_type := r.guarantee_type
    total_amount := r.total_amount
    currency := r.currency
    guest_count := r.guest_count }

/-- `create_reservation_logic`, with the fresh uuid and the current
timestamp passed in.  Returns the (possibly updated) `bookings` list and the
HTTP outcome. -/
def createReservationLogic (rid now : String) (r : Reservation)
    (s : List Booking) : List Booking × Except ApiErr Booking :=
  if checkRoomAvailability s r.room_type r.arrival_date r.departure_date none false then
    let created := mappedReservation rid now r
    (s ++ [created], .ok created)
  else
    (s, .error .conflict)

/-- The `b.update({...})` of `update_reservation_logic` followed by the
`created_at` restore and the `updated_at` stamp.  The update dictionary does
not mention `id`, `reservation_id`, `property_id`, `profile_id` or
`created_at`, so those keep their stored values; `status` is
`reservation.status or b.get("status")`. -/
def applyResUpdate (b : Booking) (r : Reservation) (now : String) : Booking :=
  let b1 : Booking :=
    { b with
      guest_name := r.guest_name
      room_type := r.room_type
      check_in := r.arrival_date
      check_out := r.departure_date
      rate_plan_code := r.rate_plan_code
      source_code := r.source_code
      market_code := r.market_code
      guaranteed := r.guaranteed
      guarantee_type := r.guarantee_type
      total_amount := r.total_amount
      currency := r.currency
      guest_count := r.guest_count
      status := pyOrStr r.status b.status }
  let b2 : Booking :=
    if !(b.created_at == "") then { b1 with created_at := b.created_at } else b1
  { b2 with updated_at := now }

/-- The loop body of `update_reservation_logic`: walk the `bookings` list,
and at the first id match re-check availability against the whole list
(excluding this id) before overwriting in place. -/
def updateGo (full : List Booking) (res_id now : String) (r : Reservation) :
    List Booking → List Booking × Except ApiErr Booking
  | [] => ([], .error .notFound)
  | b :: rest =>
    if matchesId res_id b then
      if checkRoomAvailability full r.room_type r.arrival_date r.departure_date (some res_id) false then
        let updated := applyResUpdate b r now
        (updated :: rest, .ok updated)
      else
        (b :: rest, .error .conflict)
    else
      let result := updateGo full res_id now r rest
      (b :: result.1, result.2)

/-- `update_reservation_logic`. -/
def updateReservationLogic (res_id now : String) (r : Reservation)
    (s : List Booking) : List Booking × Except ApiErr Booking :=
  updateGo s res_id now r s

/-- `delete_reservation_logic`: the HTTP response is an acknowledgment; the
embedding returns the removed record as the success payload. -/
def deleteReservationLogic (res_id : String) (s : List Booking) :
    List Booking × Except ApiErr Booking :=
  match findReservationById s res_id with
  | none => (s, .error .notFound)
  | some removed => (removeFirst (matchesId res_id) s, .ok removed)

/-- The check-in precondition
`b.get("status", "booked") in ["reserved", "booked", "guaranteed"]`; stored
records always carry the `status` key, so the default is never consulted. -/
def canCheckin : Option String → Bool
  | some st => ["reserved", "booked", "guaranteed"].contains st
  | none => false

/-- `checkin_logic`. -/
def checkinLogic (res_id now : String) (s : List Booking) :
    List Booking × Except ApiErr Booking :=
  match findReservationById s res_id with
  | none => (s, .error .notFound)
  | some b =>
    if canCheckin b.status then
      let updated := { b with status := some "checked_in", updated_at := now }
      (replaceFirst (matchesId res_id) updated s, .ok updated)
    else
      (s, .error .invalidState)

/-- `checkout_logic`: only `b.get("status") == "checked_in"` may check out. -/
def checkoutLogic (res_id now : String) (s : List Booking) :
    List Booking × Except ApiErr Booking :=
  match findReservationById s res_id with
  | none => (s, .error .notFound)
  | some b =>
    if b.status == some "checked_in" then
      let updated := { b with status := some "checked_out", updated_at := now }
      (replaceFirst (matchesId res_id) updated s, .ok updated)
    else
      (s, .error .invalidState)

/-- Serialization helper: an optional string as a JSON value. -/
def jOptStr : Option String → JVal
  | none => .jnull
  | some s => .jstr s

/-- Serialization helper: an optional amount as a JSON value. -/
def jOptRat : Option Rat → JVal
  | none => .jnull
  | some q => .jrat q

/-- The JSON object shape of a stored reservation: exactly the keys of the
`mapped` dictionary literal, in source order.  This is what `GET
/reservations` returns for each record. -/
def serializeBooking (b : Booking) : List (String × JVal) :=
  [("id", .jstr b.id),
   ("reservation_id", .jstr b.reservation_id),
   ("profile_id", jOptStr b.profile_id),
   ("property_id", .jstr b.property_id),
   ("guest_name", jOptStr b.guest_name),
   ("room_type", .jstr b.room_type),
   ("check_in", .jnat b.check_in),
   ("check_out", .jnat b.check_out),
   ("status", jOptStr b.status),
   ("rate_plan_code", jOptStr b.rate_plan_code),
   ("source_code", jOptStr b.source_code),
   ("market_code", jOptStr b.market_code),
   ("created_at", .jstr b.created_at),
   ("updated_at", .jstr b.updated_at),
   ("guaranteed", .jbool b.guaranteed),
   ("guarantee_type", jOptStr b.guarantee_type),
   ("total_amount", jOptRat b.total_amount),
   ("currency", jOptStr b.currency),
   ("guest_count", .jint b.guest_count)]

/-- The `Address` pydantic model. -/
structure Address where
  street_address : Option String
  city : Option String
  state : Option String
  postal_code : Option String
  country : Option String
deriving DecidableEq, Repr

/-- The `LoyaltyInfo` pydantic model. -/
structure LoyaltyInfo where
  program_name : Option String
  membership_number : Option String
  tier_level : Option String
  points_balance : Option Int
deriving DecidableEq, Repr

/-- One entry of the global `profiles` list: the full `model_dump()` stored
by `create_profile`, with `profile_id`, `created_at` and `updated_at` always
filled in.  `preferences` values have type `Any` in the source and are
modelled as JSON values. -/
structure StoredProfile where
  profile_id : String
  first_name : Option String
  last_name : Option String
  name : Option String
  emails : List String
  phones : List String
  address : Option Address
  loyalty_info : Option LoyaltyInfo
  date_of_birth : Option String
  preferred_language : Option String
  preferences : List (String × JVal)
  vip_status : Option String
  created_at : String
  updated_at : String
deriving DecidableEq, Repr

/-- A raw profile request body.  `none` means the field is absent (unset in
pydantic's `model_fields_set`), `some none` an explicit null.  `emails`,
`phones` and `preferences` are non-nullable in the model. -/
structure ProfileReq where
  profile_id : Option (Option String)
  first_name : Option (Option String)
  last_name : Option (Option String)
  name : Option (Option String)
  emails : Option (List String)
  phones : Option (List String)
  address : Option (Option Address)
  loyalty_info : Option (Option LoyaltyInfo)
  date_of_birth : Option (Option String)
  preferred_language : Option (Option String)
  preferences : Option (List (String × JVal))
  vip_status : Option (Option String)
  created_at : Option (Option String)
  updated_at : Option (Option String)
deriving DecidableEq, Repr

/-- The `ensure_display_name` model validator: if `name` is falsy, join the
truthy parts of `[first_name, last_name]` with a space and use that when it
is non-empty.  Returns the post-validation `name` attribute. -/
def effName (req : ProfileReq) : Option String :=
  let nm := req.name.getD none
  if pyTruthy nm then nm
  else
    let parts := [req.first_name.getD none, req.last_name.getD none]
    let combined := " ".intercalate ((parts.filterMap id).filter (fun p => !(p == "")))
    if !(combined == "") then some combined else nm

/-- Python `x or y` where `x` is an optional string and `y` a string
(`data.get("created_at") or now_ts`). -/
def pyStrOrD (x : Option String) (y : String) : String :=
  if pyTruthy x then x.getD "" else y

/-- `find_profile_by_id`: first profile whose `profile_id` matches. -/
def findProfileById (ps : List StoredProfile) (profile_id : String) : Option StoredProfile :=
  ps.find? (fun p => p.profile_id == profile_id)

/-- `create_profile`, with the fresh uuid and current timestamp passed in.
A caller-supplied truthy `profile_id` that already exists is a conflict;
the stored record is the full `model_dump()` with id and timestamps
filled in.  (The HTTP response is the whitelisted public view of this
record; the embedding returns the stored record itself.) -/
def createProfile (uuid now : String) (req : ProfileReq)
    (ps : List StoredProfile) : List StoredProfile × Except ApiErr StoredProfile :=
  let supplied := req.profile_id.getD none
  let pid := if pyTruthy supplied then supplied.getD "" else uuid
  if pyTruthy supplied && (findProfileById ps (supplied.getD "")).isSome then
    (ps, .error .conflict)
  else
    let data : StoredProfile :=
      { profile_id := pid
        first_name := req.first_name.getD none
        last_name := req.last_name.getD none
        name := effName req
        emails := req.emails.getD []
        phones := req.phones.getD []
        address := req.address.getD none
        loyalty_info := req.loyalty_info.getD none
        date_of_birth := req.date_of_birth.getD none
        preferred_language := req.preferred_language.getD none
        preferences := req.preferences.getD []
        vip_status := req.vip_status.getD none
        created_at := pyStrOrD (req.created_at.getD none) now
        updated_at := now }
    (ps ++ [data], .ok data)

/-- Merge rule of `update_profile` for a nullable field: the update
dictionary contains only fields present in the request
(`exclude_unset=True`), and the comprehension drops null values, so only a
present non-null value overwrites. -/
def mergeOpt (old : Option α) (new : Option (Option α)) : Option α :=
  match new with
  | some (some v) => some v
  | _ => old

/-- The in-place `existing.update(...)` of `update_profile` plus the
`updated_at` stamp.  `profile_id` and `created_at` are excluded from the
dump; `name` is forced into the updates whenever the post-validation
display name is truthy; `preferences` (never null) overwrites whenever
present; the final `updated_at` assignment wins over any requested value. -/
def mergeProfile (ex : StoredProfile) (req : ProfileReq) (now : String) : StoredProfile :=
  let nm := effName req
  { ex with
    first_name := mergeOpt ex.first_name req.first_name
    last_name := mergeOpt ex.last_name req.last_name
    name := if pyTruthy nm then nm
            else if nm == some "" && req.name.isSome then some ""
            else ex.name
    emails := req.emails.getD ex.emails
    phones := req.phones.getD ex.phones
    address := mergeOpt ex.address req.address
    loyalty_info := mergeOpt ex.loyalty_info req.loyalty_info
    date_of_birth := mergeOpt ex.date_of_birth req.date_of_birth
    preferred_language := mergeOpt ex.preferred_language req.preferred_language
    preferences := req.preferences.getD ex.preferences
    vip_status := mergeOpt ex.vip_status req.vip_status
    updated_at := now }

/-- `update_profile`.  (The HTTP response is the public view of the merged
record; the embedding returns the merged record itself.) -/
def updateProfile (profile_id now : String) (req : ProfileReq)
    (ps : List StoredProfile) : List StoredProfile × Except ApiErr StoredProfile :=
  match findProfileById ps profile_id with
  | none => (ps, .error .notFound)
  | some ex =>
    let merged := mergeProfile ex req now
    (replaceFirst (fun p => p.profile_id == profile_id) merged ps, .ok merged)

/-- `delete_profile`. -/
def deleteProfileLogic (profile_id : String) (ps : List StoredProfile) :
    List StoredProfile × Except ApiErr StoredProfile :=
  match findProfileById ps profile_id with
  | none => (ps, .error .notFound)
  | some removed => (removeFirst (fun p => p.profile_id == profile_id) ps, .ok removed)

/-! Spec-side definitions and claim statements. -/

/-- Freshness of a generated uuid: non-empty and not used by any stored
booking under either alias. -/
abbrev FreshId (rid : String) (s : List Booking) : Prop :=
  rid ≠ "" ∧ ∀ b ∈ s, b.id ≠ rid ∧ b.reservation_id ≠ rid

/-- States of the `bookings` store reachable from the empty store through
successful reservation creates and updates, with validated request models
and fresh uuids. -/
inductive Reachable : List Booking → Prop where
  | empty : Reachable []
  | create {s s' : List Booking} {rid now : String} {r : Reservation} {created : Booking} :
      Reachable s → validReservation r = true → FreshId rid s →
      createReservationLogic rid now r s = (s', .ok created) → Reachable s'
  | update {s s' : List Booking} {rid now : String} {r : Reservation} {updated : Booking} :
      Reachable s → validReservation r = true →
      updateReservationLogic rid now r s = (s', .ok updated) → Reachable s'

/-- Structural id invariant of reachable stores: pairwise distinct ids,
the two aliases equal, and no empty id. -/
def GoodIds (s : List Booking) : Prop :=
  (s.map (fun b => b.id)).Nodup ∧ ∀ b ∈ s, b.reservation_id = b.id ∧ b.id ≠ ""

/-- The count claim C1 speaks about: stored reservations of the given room
type whose status consumes capacity under the `includeTentative = false`
rule and whose date range overlaps the query range. -/
def consumingOverlapCount (s : List Booking) (room_type : String) (q1 q2 : Nat) : Nat :=
  s.countP (availCounts room_type q1 q2 false)

/-- Claim C1 as stated: in every reachable store, for every room type and
every query date range, the consuming overlap count is at most the room
type's inventory. -/
def C1Claim : Prop :=
  ∀ s, Reachable s → ∀ rt n q1 q2, ROOM_INVENTORY.lookup rt = some n → q1 < q2 →
    consumingOverlapCount s rt q1 q2 ≤ n

/-- Spec-side wording of C2: status exactly one of the four listed values. -/
def specStatusListed : Option String → Bool
  | some st => ["booked", "checked_in", "reserved", "guaranteed"].contains st
  | none => false

/-- Spec-side wording of C2: the reservation does not match the excluded id. -/
def specNotExcluded (exclude_id : Option String) (b : Booking) : Bool :=
  match exclude_id with
  | none => true
  | some e => !(b.id == e || b.reservation_id == e)

/-- Spec-side wording of C2: ranges `[a1, d1)` and `[a2, d2)` overlap iff
`not (d1 <= a2 or a1 >= d2)`, applied to a stored reservation against the
query range. -/
def specOverlaps (q1 q2 : Nat) (b : Booking) : Bool :=
  !(decide (b.check_out ≤ q1) || decide (b.check_in ≥ q2))

/-- The count in claim C2's own words: same room type, listed status, not
matching the excluded id, overlapping the query range — with no tentative
exclusion. -/
def specCountListed (s : List Booking) (rt : String) (q1 q2 : Nat)
    (exclude_id : Option String) : Nat :=
  s.countP (fun b => b.room_type == rt && specStatusListed b.status &&
    specNotExcluded exclude_id b && specOverlaps q1 q2 b)

/-- Claim C2 as stated: availability iff the listed-status overlap count is
strictly below inventory, for both values of the `includeTentative` flag. -/
def C2Claim : Prop :=
  ∀ s rt n q1 q2 ex inc, ROOM_INVENTORY.lookup rt = some n → q1 < q2 →
    (∀ e, ex = some e → e ≠ "") →
    (checkRoomAvailability s rt q1 q2 ex inc = true ↔ specCountListed s rt q1 q2 ex < n)

/-- The C2 count amended with the tentative rule: when `includeTentative`
is false, a reservation with status `"reserved"` and `guaranteed = false`
is additionally excluded. -/
def specCountConsuming (s : List Booking) (rt : String) (q1 q2 : Nat)
    (exclude_id : Option String) (include_tentatives : Bool) : Nat :=
  s.countP (fun b => b.room_type == rt && specStatusListed b.status &&
    specNotExcluded exclude_id b && specOverlaps q1 q2 b &&
    (include_tentatives || !(b.status == some "reserved" && !b.guaranteed)))

/-- Claim C4 as stated: a status field absent or explicitly null preserves
the prior status on a successful update. -/
def C4Claim : Prop :=
  ∀ req r s rid now b s' updated, parseReservation req = some r →
    (req.status = none ∨ req.status = some none) →
    findReservationById s rid = some b →
    updateReservationLogic rid now r s = (s', .ok updated) →
    updated.status = b.status

/-- Claim C6 as stated: a successful update overwrites all mutable fields,
including `property_id` and `profile_id`, with the request's values, while
preserving `created_at` and stamping `updated_at`. -/
def C6Claim : Prop :=
  ∀ s rid now r s' updated b, findReservationById s rid = some b →
    updateReservationLogic rid now r s = (s', .ok updated) →
    updated.property_id = r.property_id ∧ updated.profile_id = r.profile_id ∧
    updated.guest_name = r.guest_name ∧ updated.room_type = r.room_type ∧
    updated.check_in = r.arrival_date ∧ updated.check_out = r.departure_date ∧
    updated.rate_plan_code = r.rate_plan_code ∧ updated.source_code = r.source_code ∧
    updated.market_code = r.market_code ∧ updated.guaranteed = r.guaranteed ∧
    updated.guarantee_type = r.guarantee_type ∧ updated.total_amount = r.total_amount ∧
    updated.currency = r.currency ∧ updated.guest_count = r.guest_count ∧
    updated.created_at = b.created_at ∧ updated.updated_at = now

/-- Claim C7 as stated: after a successful create, fetching by the assigned
id returns a record carrying every submitted field under its submitted name
— in particular `arrival_date` and `departure_date` — plus the id aliases
and timestamps. -/
def C7Claim : Prop :=
  ∀ req r rid now s s' created, parseReservation req = some r → FreshId rid s →
    createReservationLogic rid now r s = (s', .ok created) →
    ∃ fetched, findReservationById s' rid = some fetched ∧
      ("property_id", JVal.jstr r.property_id) ∈ serializeBooking fetched ∧
      ("profile_id", jOptStr r.profile_id) ∈ serializeBooking fetched ∧
      ("guest_name", jOptStr r.guest_name) ∈ serializeBooking fetched ∧
      ("room_type", JVal.jstr r.room_type) ∈ serializeBooking fetched ∧
      ("arrival_date", JVal.jnat r.arrival_date) ∈ serializeBooking fetched ∧
      ("departure_date", JVal.jnat r.departure_date) ∈ serializeBooking fetched ∧
      ("status", jOptStr r.status) ∈ serializeBooking fetched ∧
      ("guaranteed", JVal.jbool r.guaranteed) ∈ serializeBooking fetched ∧
      ("id", JVal.jstr rid) ∈ serializeBooking fetched ∧
      ("reservation_id", JVal.jstr rid) ∈ serializeBooking fetched ∧
      ("created_at", JVal.jstr now) ∈ serializeBooking fetched ∧
      ("updated_at", JVal.jstr now) ∈ serializeBooking fetched

/-- Claim C8 as stated: a successful profile update merges only the fields
explicitly present in the request; every absent field keeps its prior
value, except `preferences`, which is overwritten whenever supplied (even
empty); `updated_at` is newly stamped. -/
def C8Claim : Prop :=
  ∀ ps pid now req ps' merged ex, findProfileById ps pid = some ex →
    updateProfile pid now req ps = (ps', .ok merged) →
    (req.first_name = none → merged.first_name = ex.first_name) ∧
    (req.last_name = none → merged.last_name = ex.last_name) ∧
    (req.name = none → merged.name = ex.name) ∧
    (req.emails = none → merged.emails = ex.emails) ∧
    (req.phones = none → merged.phones = ex.phones) ∧
    (req.address = none → merged.address = ex.address) ∧
    (req.loyalty_info = none → merged.loyalty_info = ex.loyalty_info) ∧
    (req.date_of_birth = none → merged.date_of_birth = ex.date_of_birth) ∧
    (req.preferred_language = none → merged.preferred_language = ex.preferred_language) ∧
    (req.vip_status = none → merged.vip_status = ex.vip_status) ∧
    (req.preferences = none → merged.preferences = ex.preferences) ∧
    (∀ prefs, req.preferences = some prefs → merged.preferences = prefs) ∧
    merged.updated_at = now

/-! Concrete sample data used by witnesses and counterexamples. -/

/-- A reservation model with chosen property, profile reference, room,
dates and status; all other fields at their parse defaults. -/
def sampleParsed (prop : String) (pid : Option String) (room : String)
    (a d : Nat) (st : Option String) : Reservation :=
  { reservation_id := none, profile_id := pid, property_id := prop
    guest_name := some "Guest", room_type := room
    rate_plan_code := none, source_code := none, market_code := none
    arrival_date := a, departure_date := d
    guaranteed := false, guarantee_type := none, currency := some "USD"
    total_amount := none, guest_count := 1, status := st
    created_at := none, updated_at := none }

/-- A raw reservation request with a chosen raw status field. -/
def sampleReservationReq (room : String) (a d : Nat) (st : Option (Option String)) : ReservationReq :=
  { reservation_id := none, profile_id := none, property_id := "HOTEL1"
    guest_name := some (some "Guest"), room_type := room
    rate_plan_code := none, source_code := none, market_code := none
    arrival_date := a, departure_date := d
    guaranteed := none, guarantee_type := none, currency := none
    total_amount := none, guest_count := none, status := st
    created_at := none, updated_at := none }

/-- A stored booking record with a chosen status and guarantee flag. -/
def sampleBooking (rid room : String) (a d : Nat) (st : Option String) (g : Bool) : Booking :=
  { id := rid, reservation_id := rid, profile_id := none, property_id := "HOTEL1"
    guest_name := some "Guest", room_type := room, check_in := a, check_out := d
    status := st, rate_plan_code := none, source_code := none, market_code := none
    created_at := "T0", updated_at := "T0", guaranteed := g, guarantee_type := none
    total_amount := none, currency := some "USD", guest_count := 1 }

/-- A stored profile with a chosen display name. -/
def sampleProfile (pid : String) (nm : Option String) : StoredProfile :=
  { profile_id := pid, first_name := none, last_name := none, name := nm
    emails := [], phones := [], address := none, loyalty_info := none
    date_of_birth := none, preferred_language := none, preferences := []
    vip_status := none, created_at := "T0", updated_at := "T0" }

/-- A profile request with every field absent. -/
def emptyProfileReq : ProfileReq :=
  { profile_id := none, first_name := none, last_name := none, name := none
    emails := none, phones := none, address := none, loyalty_info := none
    date_of_birth := none, preferred_language := none, preferences := none
    vip_status := none, created_at := none, updated_at := none }

/-! Helper lemmas. -/

theorem rangesOverlap_iff {a b c d : Nat} :
    rangesOverlap a b c d = true ↔ c < b ∧ a < d := by
  simp only [rangesOverlap, Bool.not_eq_true', Bool.or_eq_false_iff,
    decide_eq_false_iff_not, not_le]

theorem overlap_day_trans {a dep d ci co : Nat}
    (h1 : rangesOverlap d (d + 1) a dep = true)
    (h2 : rangesOverlap d (d + 1) ci co = true) :
    rangesOverlap a dep ci co = true := by
  rw [rangesOverlap_iff] at h1 h2 ⊢
  omega

theorem availCounts_eq_true_iff {rt : String} {q1 q2 : Nat} {inc : Bool} {b : Booking} :
    availCounts rt q1 q2 inc b = true ↔
      b.room_type = rt ∧ statusConsumes inc b.status b.guaranteed = true ∧
        rangesOverlap q1 q2 b.check_in b.check_out = true := by
  simp [availCounts, and_assoc]

theorem guardCounts_eq_true_iff {rt : String} {q1 q2 : Nat} {ex : Option String}
    {inc : Bool} {b : Booking} :
    guardCounts rt q1 q2 ex inc b = true ↔
      b.room_type = rt ∧ excludedBy ex b = false ∧
        statusConsumes inc b.status b.guaranteed = true ∧
        rangesOverlap q1 q2 b.check_in b.check_out = true := by
  simp [guardCounts, and_assoc, Bool.not_eq_true']

theorem guard_of_avail_day {rt : String} {a dep d : Nat} {ex : Option String} {b : Booking}
    (hov : rangesOverlap d (d + 1) a dep = true)
    (hex : excludedBy ex b = false)
    (hb : availCounts rt d (d + 1) false b = true) :
    guardCounts rt a dep ex false b = true := by
  rw [availCounts_eq_true_iff] at hb
  rw [guardCounts_eq_true_iff]
  exact ⟨hb.1, hex, hb.2.1, overlap_day_trans hov hb.2.2⟩

theorem checkRoomAvailability_iff {s : List Booking} {rt : String} {q1 q2 : Nat}
    {ex : Option String} {inc : Bool} :
    checkRoomAvailability s rt q1 q2 ex inc = true ↔
      s.countP (guardCounts rt q1 q2 ex inc) < (ROOM_INVENTORY.lookup rt).getD 0 := by
  simp [checkRoomAvailability]

theorem createReservationLogic_ok {rid now : String} {r : Reservation}
    {s s' : List Booking} {created : Booking}
    (h : createReservationLogic rid now r s = (s', .ok created)) :
    checkRoomAvailability s r.room_type r.arrival_date r.departure_date none false = true ∧
      created = mappedReservation rid now r ∧
      s' = s ++ [mappedReservation rid now r] := by
  simp only [createReservationLogic] at h
  split at h
  case isTrue hg =>
    injection h with h1 h2
    injection h2 with h3
    exact ⟨hg, h3.symm, h1.symm⟩
  case isFalse hg =>
    injection h with h1 h2
    exact absurd h2 (by simp)

theorem createReservationLogic_error {rid now : String} {r : Reservation}
    {s s' : List Booking} {e : ApiErr}
    (h : createReservationLogic rid now r s = (s', .error e)) : s' = s := by
  simp only [createReservationLogic] at h
  split at h
  case isTrue hg =>
    injection h with h1 h2
    exact absurd h2 (by simp)
  case isFalse hg =>
    injection h with h1 h2
    exact h1.symm

theorem updateGo_ok {full : List Booking} {rid now : String} {r : Reservation} :
    ∀ {l l' : List Booking} {updated : Booking},
      updateGo full rid now r l = (l', .ok updated) →
      ∃ l₁ b l₂, l = l₁ ++ b :: l₂ ∧ (∀ x ∈ l₁, matchesId rid x = false) ∧
        matchesId rid b = true ∧
        checkRoomAvailability full r.room_type r.arrival_date r.departure_date (some rid) false = true ∧
        updated = applyResUpdate b r now ∧ l' = l₁ ++ updated :: l₂ := by
  intro l
  induction l with
  | nil => intro l' u h; simp [updateGo] at h
  | cons a rest ih =>
    intro l' u h
    simp only [updateGo] at h
    by_cases hm : matchesId rid a = true
    · rw [if_pos hm] at h
      by_cases hg : checkRoomAvailability full r.room_type r.arrival_date r.departure_date (some rid) false = true
      · rw [if_pos hg] at h
        injection h with h1 h2
        injection h2 with h3
        refine ⟨[], a, rest, by simp, by simp, hm, hg, h3.symm, ?_⟩
        rw [← h1, h3]
        simp
      · rw [if_neg hg] at h
        injection h with h1 h2
        exact absurd h2 (by simp)
    · rw [if_neg hm] at h
      injection h with h1 h2
      have heq : updateGo full rid now r rest = ((updateGo full rid now r rest).1, Except.ok u) := by
        rw [← h2]
      obtain ⟨l₁, b, l₂, hsp, hnm, hmb, hg, hupd, hl⟩ := ih heq
      have hm0 : matchesId rid a = false := by
        cases hmv : matchesId rid a with
        | false => rfl
        | true => exact absurd hmv hm
      refine ⟨a :: l₁, b, l₂, by simp [hsp], ?_, hmb, hg, hupd, ?_⟩
      · intro x hx
        rcases List.mem_cons.mp hx with hxa | hxl
        · exact hxa ▸ hm0
        · exact hnm x hxl
      · rw [← h1, hl]
        simp

theorem updateGo_error {full : List Booking} {rid now : String} {r : Reservation} :
    ∀ {l l' : List Booking} {e : ApiErr},
      updateGo full rid now r l = (l', .error e) → l' = l := by
  intro l
  induction l with
  | nil =>
    intro l' e h
    simp only [updateGo] at h
    injection h with h1 h2
    exact h1.symm
  | cons a rest ih =>
    intro l' e h
    simp only [updateGo] at h
    by_cases hm : matchesId rid a = true
    · rw [if_pos hm] at h
      by_cases hg : checkRoomAvailability full r.room_type r.arrival_date r.departure_date (some rid) false = true
      · rw [if_pos hg] at h
        injection h with h1 h2
        exact absurd h2 (by simp)
      · rw [if_neg hg] at h
        injection h with h1 h2
        exact h1.symm
    · rw [if_neg hm] at h
      injection h with h1 h2
      have heq : updateGo full rid now r rest = ((updateGo full rid now r rest).1, Except.error e) := by
        rw [← h2]
      have := ih heq
      rw [← h1, this]

theorem applyResUpdate_eq (b : Booking) (r : Reservation) (now : String) :
    applyResUpdate b r now =
      { b with
        guest_name := r.guest_name
        room_type := r.room_type
        check_in := r.arrival_date
        check_out := r.departure_date
        rate_plan_code := r.rate_plan_code
        source_code := r.source_code
        market_code := r.market_code
        guaranteed := r.guaranteed
        guarantee_type := r.guarantee_type
        total_amount := r.total_amount
        currency := r.currency
        guest_count := r.guest_count
        status := pyOrStr r.status b.status
        updated_at := now } := by
  cases hb : b.created_at == "" <;> simp [applyResUpdate, hb]

theorem find?_append_cons {p : α → Bool} {l₁ : List α} {b : α} (l₂ : List α)
    (h₁ : ∀ x ∈ l₁, p x = false) (hb : p b = true) :
    (l₁ ++ b :: l₂).find? p = some b := by
  induction l₁ with
  | nil => simpa using List.find?_cons_of_pos l₂ hb
  | cons a l ih =>
    have ha := h₁ a (List.mem_cons_self a l)
    rw [List.cons_append, List.find?_cons_of_neg _ (by simp [ha])]
    exact ih (fun x hx => h₁ x (List.mem_cons_of_mem a hx))

theorem find?_replaceFirst {p : α → Bool} {x b : α} {l : List α}
    (h : l.find? p = some b) (hx : p x = true) :
    (replaceFirst p x l).find? p = some x := by
  induction l with
  | nil => simp at h
  | cons a l ih =>
    by_cases ha : p a = true
    · simp only [replaceFirst, if_pos ha]
      exact List.find?_cons_of_pos _ hx
    · have ha0 : p a = false := by
        cases hav : p a with
        | false => rfl
        | true => exact absurd hav ha
      rw [List.find?_cons_of_neg _ (by simp [ha0])] at h
      simp only [replaceFirst, if_neg ha]
      rw [List.find?_cons_of_neg _ (by simp [ha0])]
      exact ih h

theorem goodIds_split {l₁ : List Booking} {b : Booking} {l₂ : List Booking}
    (h : GoodIds (l₁ ++ b :: l₂)) :
    (∀ x ∈ l₁, x.id ≠ b.id) ∧ (∀ x ∈ l₂, x.id ≠ b.id) := by
  obtain ⟨hnd, _⟩ := h
  rw [List.map_append, List.map_cons, List.nodup_append] at hnd
  obtain ⟨h1, h2, hdisj⟩ := hnd
  constructor
  · intro x hx heq
    exact hdisj (List.mem_map_of_mem _ hx) (by simp [heq])
  · intro x hx heq
    have hbnot := (List.nodup_cons.mp h2).1
    exact hbnot (heq ▸ List.mem_map_of_mem _ hx)

theorem reachable_goodIds {s : List Booking} (h : Reachable s) : GoodIds s := by
  induction h with
  | empty => exact ⟨List.nodup_nil, by simp⟩
  | create hs hv hf hc ih =>
    rename_i s₀ s' rid now r created
    obtain ⟨hg, hcr, hs'⟩ := createReservationLogic_ok hc
    subst hs'
    obtain ⟨hne, hfr⟩ := hf
    constructor
    · rw [List.map_append, List.nodup_append]
      refine ⟨ih.1, by simp, ?_⟩
      intro a ha hamem
      simp only [List.map_cons, List.map_nil, List.mem_singleton] at hamem
      obtain ⟨x, hx, hxa⟩ := List.mem_map.mp ha
      exact (hfr x hx).1 (by rw [hxa, hamem]; rfl)
    · intro x hx
      rcases List.mem_append.mp hx with hxm | hxm
      · exact ih.2 x hxm
      · simp only [List.mem_singleton] at hxm
        subst hxm
        exact ⟨rfl, hne⟩
  | update hs hv hu ih =>
    rename_i s₀ s' rid now r updated
    unfold updateReservationLogic at hu
    obtain ⟨l₁, b, l₂, hsp, hnm, hmb, hg, hupd, hl⟩ := updateGo_ok hu
    subst hsp hl hupd
    constructor
    · have hmap : ((l₁ ++ applyResUpdate b r now :: l₂).map (fun x => x.id)) =
          ((l₁ ++ b :: l₂).map (fun x => x.id)) := by
        simp [List.map_append, applyResUpdate_eq]
      rw [hmap]
      exact ih.1
    · intro x hx
      rcases List.mem_append.mp hx with hxm | hxm
      · exact ih.2 x (List.mem_append.mpr (Or.inl hxm))
      · rcases List.mem_cons.mp hxm with hxe | hxm2
        · subst hxe
          have hb := ih.2 b (List.mem_append.mpr (Or.inr (List.mem_cons_self _ _)))
          rw [applyResUpdate_eq]
          exact hb
        · exact ih.2 x (List.mem_append.mpr (Or.inr (List.mem_cons_of_mem _ hxm2)))

theorem reachable_day_capacity {s : List Booking} (h : Reachable s) :
    ∀ rt n, ROOM_INVENTORY.lookup rt = some n → ∀ d : Nat,
      s.countP (availCounts rt d (d + 1) false) ≤ n := by
  induction h with
  | empty => intro rt n _ d; simp
  | create hs hv hf hc ih =>
    rename_i s₀ s' rid now r created
    obtain ⟨hg, hcr, hs'⟩ := createReservationLogic_ok hc
    subst hs'
    intro rt n hrt d
    rw [List.countP_append]
    by_cases hm : availCounts rt d (d + 1) false (mappedReservation rid now r) = true
    · have hroom : r.room_type = rt := by
        rw [availCounts_eq_true_iff] at hm
        exact hm.1
      subst hroom
      have hov : rangesOverlap d (d + 1) r.arrival_date r.departure_date = true := by
        rw [availCounts_eq_true_iff] at hm
        exact hm.2.2
      rw [checkRoomAvailability_iff, hrt, Option.getD_some] at hg
      have hmono : s₀.countP (availCounts r.room_type d (d + 1) false) ≤
          s₀.countP (guardCounts r.room_type r.arrival_date r.departure_date none false) :=
        List.countP_mono_left (fun x _ hax => guard_of_avail_day hov rfl hax)
      have h1 : List.countP (availCounts r.room_type d (d + 1) false)
          [mappedReservation rid now r] = 1 := by
        simp [List.countP_singleton, hm]
      rw [h1]
      omega
    · have h0 : List.countP (availCounts rt d (d + 1) false)
          [mappedReservation rid now r] = 0 := by
        simp [List.countP_singleton, hm]
      rw [h0]
      have := ih rt n hrt d
      omega
  | update hs hv hu ih =>
    rename_i s₀ s' rid now r updated
    unfold updateReservationLogic at hu
    obtain ⟨l₁, b, l₂, hsp, hnm, hmb, hg, hupd, hl⟩ := updateGo_ok hu
    subst hsp hl hupd
    have hgood := reachable_goodIds hs
    intro rt n hrt d
    have hsold := ih rt n hrt d
    rw [List.countP_append, List.countP_cons] at hsold
    rw [List.countP_append, List.countP_cons]
    by_cases hm : availCounts rt d (d + 1) false (applyResUpdate b r now) = true
    · rw [availCounts_eq_true_iff, applyResUpdate_eq] at hm
      have hroom : r.room_type = rt := hm.1
      subst hroom
      have hov : rangesOverlap d (d + 1) r.arrival_date r.departure_date = true := hm.2.2
      rw [checkRoomAvailability_iff, hrt, Option.getD_some,
        List.countP_append, List.countP_cons] at hg
      have hbmem : b ∈ l₁ ++ b :: l₂ :=
        List.mem_append.mpr (Or.inr (List.mem_cons_self _ _))
      have hbid := hgood.2 b hbmem
      have hrid : rid = b.id := by
        simp only [matchesId, Bool.or_eq_true, beq_iff_eq] at hmb
        rcases hmb with hid | hres
        · exact hid.symm
        · rw [← hbid.1]; exact hres.symm
      obtain ⟨hl₁, hl₂⟩ := goodIds_split hgood
      have hex₁ : ∀ x ∈ l₁, excludedBy (some rid) x = false := by
        intro x hx
        have hxg := hgood.2 x (List.mem_append.mpr (Or.inl hx))
        have hxid : (x.id == rid) = false :=
          beq_eq_false_iff_ne.mpr (hrid ▸ hl₁ x hx)
        simp [excludedBy, hxg.1, hxid]
      have hex₂ : ∀ x ∈ l₂, excludedBy (some rid) x = false := by
        intro x hx
        have hxg := hgood.2 x
          (List.mem_append.mpr (Or.inr (List.mem_cons_of_mem _ hx)))
        have hxid : (x.id == rid) = false :=
          beq_eq_false_iff_ne.mpr (hrid ▸ hl₂ x hx)
        simp [excludedBy, hxg.1, hxid]
      have hm₁ : l₁.countP (availCounts r.room_type d (d + 1) false) ≤
          l₁.countP (guardCounts r.room_type r.arrival_date r.departure_date (some rid) false) :=
        List.countP_mono_left (fun x hx hax => guard_of_avail_day hov (hex₁ x hx) hax)
      have hm₂ : l₂.countP (availCounts r.room_type d (d + 1) false) ≤
          l₂.countP (guardCounts r.room_type r.arrival_date r.departure_date (some rid) false) :=
        List.countP_mono_left (fun x hx hax => guard_of_avail_day hov (hex₂ x hx) hax)
      have hmu : availCounts r.room_type d (d + 1) false (applyResUpdate b r now) = true := by
        rw [availCounts_eq_true_iff, applyResUpdate_eq]
        exact hm
      rw [if_pos hmu]
      omega
    · rw [if_neg hm]
      omega

theorem parseReservation_status {req : ReservationReq} {r : Reservation}
    (h : parseReservation req = some r) :
    r.status = req.status.getD (some "reserved") := by
  simp only [parseReservation] at h
  split at h
  · injection h with hr
    rw [← hr]
  · exact absurd h (by simp)

/-! Claim C1. -/

/-- C1 (counterexample): as stated the claim is false.  Three back-to-back
suite reservations (ranges `[0,1)`, `[1,2)`, `[2,3)`) are all created
successfully, yet all three overlap the query range `[0,3)`, so the
consuming overlap count for that query range is 3, above the suite
inventory of 2. -/
theorem c1_counterexample : ¬ C1Claim := by
  intro h
  have h1 : createReservationLogic "a" "t" (sampleParsed "HOTEL1" none "suite" 0 1 (some "booked")) [] =
      ([mappedReservation "a" "t" (sampleParsed "HOTEL1" none "suite" 0 1 (some "booked"))],
        Except.ok (mappedReservation "a" "t" (sampleParsed "HOTEL1" none "suite" 0 1 (some "booked")))) := by
    rfl
  have hr1 := Reachable.create Reachable.empty (by decide) (by decide) h1
  have h2 : createReservationLogic "b" "t" (sampleParsed "HOTEL1" none "suite" 1 2 (some "booked"))
      [mappedReservation "a" "t" (sampleParsed "HOTEL1" none "suite" 0 1 (some "booked"))] =
      ([mappedReservation "a" "t" (sampleParsed "HOTEL1" none "suite" 0 1 (some "booked")),
        mappedReservation "b" "t" (sampleParsed "HOTEL1" none "suite" 1 2 (some "booked"))],
        Except.ok (mappedReservation "b" "t" (sampleParsed "HOTEL1" none "suite" 1 2 (some "booked")))) := by
    rfl
  have hr2 := Reachable.create hr1 (by decide) (by decide) h2
  have h3 : createReservationLogic "c" "t" (sampleParsed "HOTEL1" none "suite" 2 3 (some "booked"))
      [mappedReservation "a" "t" (sampleParsed "HOTEL1" none "suite" 0 1 (some "booked")),
        mappedReservation "b" "t" (sampleParsed "HOTEL1" none "suite" 1 2 (some "booked"))] =
      ([mappedReservation "a" "t" (sampleParsed "HOTEL1" none "suite" 0 1 (some "booked")),
        mappedReservation "b" "t" (sampleParsed "HOTEL1" none "suite" 1 2 (some "booked")),
        mappedReservation "c" "t" (sampleParsed "HOTEL1" none "suite" 2 3 (some "booked"))],
        Except.ok (mappedReservation "c" "t" (sampleParsed "HOTEL1" none "suite" 2 3 (some "booked")))) := by
    rfl
  have hr3 := Reachable.create hr2 (by decide) (by decide) h3
  exact absurd (h _ hr3 "suite" 2 0 3 (by decide) (by decide)) (by decide)

/-- C1 (amended): restricted to single-day query ranges `[d, d+1)` the
claim holds — after any sequence of successful creates and updates from the
empty store, no room type ever has more consuming reservations covering any
single day than its total inventory (no overselling). -/
theorem c1_no_oversell_single_day (s : List Booking) (h : Reachable s)
    (rt : String) (n : Nat) (d : Nat) (hrt : ROOM_INVENTORY.lookup rt = some n) :
    consumingOverlapCount s rt d (d + 1) ≤ n :=
  reachable_day_capacity h rt n hrt d

/-- Witness for C1: a store with one suite booking over `[0,2)` is
reachable, and its consuming count for day 1 is within inventory. -/
theorem c1_witness :
    consumingOverlapCount
      [mappedReservation "a" "t" (sampleParsed "HOTEL1" none "suite" 0 2 (some "booked"))]
      "suite" 1 2 ≤ 2 := by
  have h1 : createReservationLogic "a" "t" (sampleParsed "HOTEL1" none "suite" 0 2 (some "booked")) [] =
      ([mappedReservation "a" "t" (sampleParsed "HOTEL1" none "suite" 0 2 (some "booked"))],
        Except.ok (mappedReservation "a" "t" (sampleParsed "HOTEL1" none "suite" 0 2 (some "booked")))) := by
    rfl
  exact c1_no_oversell_single_day _
    (Reachable.create Reachable.empty (by decide) (by decide) h1) "suite" 2 1 (by decide)

/-! Claim C2. -/

theorem specStatusListed_eq : specStatusListed = statusInConsuming := by
  funext st
  cases st <;> rfl

theorem notExcluded_iff {ex : Option String} {b : Booking}
    (hex : ∀ e, ex = some e → e ≠ "") :
    specNotExcluded ex b = true ↔ excludedBy ex b = false := by
  cases ex with
  | none => simp [specNotExcluded, excludedBy]
  | some e =>
    have he : (e == "") = false := beq_eq_false_iff_ne.mpr (hex e rfl)
    simp [specNotExcluded, excludedBy, he, Bool.not_eq_true']

theorem statusConsumes_iff {inc : Bool} {st : Option String} {g : Bool} :
    statusConsumes inc st g = true ↔
      statusInConsuming st = true ∧ (inc || !((st == some "reserved") && !g)) = true := by
  cases inc <;> cases hb : (st == some "reserved") <;> cases g <;>
    simp [statusConsumes, hb]

theorem specOverlaps_iff {q1 q2 : Nat} {b : Booking} :
    specOverlaps q1 q2 b = true ↔ rangesOverlap q1 q2 b.check_in b.check_out = true := by
  rw [rangesOverlap_iff]
  simp only [specOverlaps, Bool.not_eq_true', Bool.or_eq_false_iff,
    decide_eq_false_iff_not, not_le]
  omega

theorem specCountConsuming_eq_guard {s : List Booking} {rt : String} {q1 q2 : Nat}
    {ex : Option String} {inc : Bool} (hex : ∀ e, ex = some e → e ≠ "") :
    specCountConsuming s rt q1 q2 ex inc = s.countP (guardCounts rt q1 q2 ex inc) := by
  apply List.countP_congr
  intro b _
  rw [guardCounts_eq_true_iff]
  simp only [Bool.and_eq_true, beq_iff_eq]
  constructor
  · rintro ⟨⟨⟨⟨hroom, hlist⟩, hnex⟩, hov⟩, hten⟩
    refine ⟨hroom, (notExcluded_iff hex).mp hnex, ?_, specOverlaps_iff.mp hov⟩
    rw [statusConsumes_iff]
    rw [specStatusListed_eq] at hlist
    exact ⟨hlist, hten⟩
  · rintro ⟨hroom, hnex, hcons, hov⟩
    rw [statusConsumes_iff] at hcons
    refine ⟨⟨⟨⟨hroom, ?_⟩, (notExcluded_iff hex).mpr hnex⟩, specOverlaps_iff.mpr hov⟩, hcons.2⟩
    rw [specStatusListed_eq]
    exact hcons.1

/-- C2 (counterexample): as stated the claim is false because it omits the
tentative rule.  With two non-guaranteed `"reserved"` suite reservations
overlapping the query range and `includeTentative = false`,
`check_room_availability` returns true (the guard count is 0), but the
claim's listed-status count is 2, which is not below the suite inventory
of 2. -/
theorem c2_counterexample : ¬ C2Claim := by
  intro h
  have hiff := h
    [sampleBooking "x" "suite" 0 2 (some "reserved") false,
      sampleBooking "y" "suite" 0 2 (some "reserved") false]
    "suite" 2 0 1 none false (by decide) (by decide)
    (fun e he => Option.noConfusion he)
  exact absurd (hiff.mp (by decide)) (by decide)

/-- C2 (amended): for a valid room type, a nonempty optional excluded id
and either flag value, `check_room_availability` returns true iff the count
of reservations of the same room type, with status exactly one of
booked/checked_in/reserved/guaranteed, not matching the excluded id,
overlapping the query range under half-open semantics, and — when
`includeTentative` is false — not a non-guaranteed `"reserved"`
reservation, is strictly below the room type's total inventory. -/
theorem c2_availability_iff (s : List Booking) (rt : String) (n q1 q2 : Nat)
    (ex : Option String) (inc : Bool)
    (hrt : ROOM_INVENTORY.lookup rt = some n) (hq : q1 < q2)
    (hex : ∀ e, ex = some e → e ≠ "") :
    checkRoomAvailability s rt q1 q2 ex inc = true ↔
      specCountConsuming s rt q1 q2 ex inc < n := by
  rw [checkRoomAvailability_iff, hrt, Option.getD_some, specCountConsuming_eq_guard hex]

/-- Witness for C2: on the empty store every room is available, and the
amended count agrees. -/
theorem c2_witness : checkRoomAvailability [] "single" 0 1 none false = true :=
  (c2_availability_iff [] "single" 5 0 1 none false (by decide) (by decide)
    (fun e he => Option.noConfusion he)).mpr (by decide)

/-! Claim C3. -/

/-- C3 (confirmed): with `includeTentative = false`, in both the
availability query's counting predicate and the capacity guard's counting
predicate, a stored reservation with status `"reserved"` is counted exactly
when `guaranteed = true` (given the room, exclusion and overlap
conditions); in particular a non-guaranteed `"reserved"` reservation is
excluded from the capacity count and a guaranteed one consumes capacity. -/
theorem c3_tentative_rule (rt : String) (q1 q2 : Nat) (ex : Option String)
    (b : Booking) (hst : b.status = some "reserved") :
    guardCounts rt q1 q2 ex false b =
      (b.room_type == rt && !excludedBy ex b && b.guaranteed &&
        rangesOverlap q1 q2 b.check_in b.check_out) ∧
    availCounts rt q1 q2 false b =
      (b.room_type == rt && b.guaranteed &&
        rangesOverlap q1 q2 b.check_in b.check_out) := by
  have hsc : statusConsumes false b.status b.guaranteed = b.guaranteed := by
    rw [hst]
    cases b.guaranteed <;> rfl
  constructor
  · simp only [guardCounts, hsc]
  · simp only [availCounts, hsc]

/-- Witness for C3: a non-guaranteed reserved suite booking is not counted
by the guard, a guaranteed one is. -/
theorem c3_witness :
    guardCounts "suite" 0 1 none false
      (sampleBooking "x" "suite" 0 2 (some "reserved") false) = false ∧
    guardCounts "suite" 0 1 none false
      (sampleBooking "y" "suite" 0 2 (some "reserved") true) = true := by
  have h1 := c3_tentative_rule "suite" 0 1 none
    (sampleBooking "x" "suite" 0 2 (some "reserved") false) rfl
  have h2 := c3_tentative_rule "suite" 0 1 none
    (sampleBooking "y" "suite" 0 2 (some "reserved") true) rfl
  exact ⟨by rw [h1.1]; decide, by rw [h2.1]; decide⟩

/-! Claim C4. -/

/-- C4 (counterexample): as stated the claim is false for an absent status
field.  Pydantic fills an absent `status` with the default `"reserved"`, so
updating a `"checked_in"` reservation with a request that omits `status`
resets the stored status to `"reserved"` instead of preserving it. -/
theorem c4_counterexample : ¬ C4Claim := by
  intro h
  exact absurd
    (h (sampleReservationReq "suite" 0 2 none)
      (sampleParsed "HOTEL1" none "suite" 0 2 (some "reserved"))
      [sampleBooking "x" "suite" 0 2 (some "checked_in") false] "x" "t1"
      (sampleBooking "x" "suite" 0 2 (some "checked_in") false)
      [applyResUpdate (sampleBooking "x" "suite" 0 2 (some "checked_in") false)
        (sampleParsed "HOTEL1" none "suite" 0 2 (some "reserved")) "t1"]
      (applyResUpdate (sampleBooking "x" "suite" 0 2 (some "checked_in") false)
        (sampleParsed "HOTEL1" none "suite" 0 2 (some "reserved")) "t1")
      (by decide) (Or.inl rfl) (by decide) rfl)
    (by decide)

/-- C4 (amended): a successful update whose status field is explicitly null
preserves the prior stored status (an absent status field is filled with
the default `"reserved"` by request parsing and overwrites the prior
status). -/
theorem c4_null_status_preserved (req : ReservationReq) (r : Reservation)
    (s : List Booking) (rid now : String) (b : Booking)
    (s' : List Booking) (updated : Booking)
    (hpar : parseReservation req = some r) (hst : req.status = some none)
    (hfind : findReservationById s rid = some b)
    (hupd : updateReservationLogic rid now r s = (s', .ok updated)) :
    updated.status = b.status := by
  have hrst : r.status = none := by
    rw [parseReservation_status hpar, hst]
    rfl
  unfold updateReservationLogic at hupd
  obtain ⟨l₁, b₀, l₂, hsp, hnm, hmb, hg, hueq, hl⟩ := updateGo_ok hupd
  have hfind2 : findReservationById s rid = some b₀ := by
    rw [hsp]
    exact find?_append_cons l₂ hnm hmb
  rw [hfind] at hfind2
  injection hfind2 with hbb
  subst hbb
  rw [hueq, applyResUpdate_eq, hrst]
  rfl

/-- Witness for C4: updating a checked-in reservation with an explicitly
null status leaves the status checked in. -/
theorem c4_witness :
    (applyResUpdate (sampleBooking "x" "suite" 0 2 (some "checked_in") false)
      (sampleParsed "HOTEL1" none "suite" 0 2 none) "t1").status = some "checked_in" :=
  c4_null_status_preserved (sampleReservationReq "suite" 0 2 (some none))
    (sampleParsed "HOTEL1" none "suite" 0 2 none)
    [sampleBooking "x" "suite" 0 2 (some "checked_in") false] "x" "t1"
    (sampleBooking "x" "suite" 0 2 (some "checked_in") false)
    [applyResUpdate (sampleBooking "x" "suite" 0 2 (some "checked_in") false)
      (sampleParsed "HOTEL1" none "suite" 0 2 none) "t1"]
    (applyResUpdate (sampleBooking "x" "suite" 0 2 (some "checked_in") false)
      (sampleParsed "HOTEL1" none "suite" 0 2 none) "t1")
    (by decide) rfl (by decide) rfl

/-! Claim C5. -/

theorem canCheckin_iff {st : Option String} :
    canCheckin st = true ↔
      (st = some "reserved" ∨ st = some "booked" ∨ st = some "guaranteed") := by
  cases st with
  | none => simp [canCheckin]
  | some x => simp [canCheckin]

/-- C5 (confirmed): for a stored reservation found by id, checkin succeeds
exactly when its status is one of reserved/booked/guaranteed and otherwise
fails with an InvalidState (400) error leaving the store unchanged;
checkout succeeds exactly when the status is checked_in and otherwise fails
likewise; on success the status becomes checked_in respectively
checked_out; checkout before checkin fails, and a second checkin after a
successful one fails. -/
theorem c5_checkin_checkout_states (s : List Booking) (rid now : String) (b : Booking)
    (hfind : findReservationById s rid = some b) :
    ((∃ u, (checkinLogic rid now s).2 = Except.ok u) ↔
      (b.status = some "reserved" ∨ b.status = some "booked" ∨ b.status = some "guaranteed")) ∧
    ((b.status = some "reserved" ∨ b.status = some "booked" ∨ b.status = some "guaranteed") →
      checkinLogic rid now s =
        (replaceFirst (matchesId rid) { b with status := some "checked_in", updated_at := now } s,
          Except.ok { b with status := some "checked_in", updated_at := now })) ∧
    (¬(b.status = some "reserved" ∨ b.status = some "booked" ∨ b.status = some "guaranteed") →
      checkinLogic rid now s = (s, Except.error ApiErr.invalidState)) ∧
    ((∃ u, (checkoutLogic rid now s).2 = Except.ok u) ↔ b.status = some "checked_in") ∧
    (b.status = some "checked_in" →
      checkoutLogic rid now s =
        (replaceFirst (matchesId rid) { b with status := some "checked_out", updated_at := now } s,
          Except.ok { b with status := some "checked_out", updated_at := now })) ∧
    (b.status ≠ some "checked_in" →
      checkoutLogic rid now s = (s, Except.error ApiErr.invalidState)) ∧
    ApiErr.statusCode ApiErr.invalidState = 400 ∧
    ((b.status = some "reserved" ∨ b.status = some "booked" ∨ b.status = some "guaranteed") →
      ∀ now2, (checkinLogic rid now2 (checkinLogic rid now s).1).2 =
        Except.error ApiErr.invalidState) := by
  have hmb : matchesId rid b = true := List.find?_some hfind
  refine ⟨?_, ?_, ?_, ?_, ?_, ?_, rfl, ?_⟩
  · constructor
    · rintro ⟨u, hu⟩
      by_cases hcan : canCheckin b.status = true
      · exact canCheckin_iff.mp hcan
      · simp only [checkinLogic, hfind, if_neg hcan] at hu
        exact absurd hu (by simp)
    · intro hcond
      refine ⟨{ b with status := some "checked_in", updated_at := now }, ?_⟩
      simp only [checkinLogic, hfind, if_pos (canCheckin_iff.mpr hcond)]
  · intro hcond
    simp only [checkinLogic, hfind, if_pos (canCheckin_iff.mpr hcond)]
  · intro hcond
    have hcan : ¬ canCheckin b.status = true := fun hc => hcond (canCheckin_iff.mp hc)
    simp only [checkinLogic, hfind, if_neg hcan]
  · constructor
    · rintro ⟨u, hu⟩
      by_cases hco : (b.status == some "checked_in") = true
      · exact beq_iff_eq.mp hco
      · simp only [checkoutLogic, hfind, if_neg hco] at hu
        exact absurd hu (by simp)
    · intro hcond
      refine ⟨{ b with status := some "checked_out", updated_at := now }, ?_⟩
      simp only [checkoutLogic, hfind,
        if_pos (beq_iff_eq.mpr hcond)]
  · intro hcond
    simp only [checkoutLogic, hfind,
      if_pos (beq_iff_eq.mpr hcond)]
  · intro hcond
    have hco : ¬ (b.status == some "checked_in") = true := by
      simp [hcond]
    simp only [checkoutLogic, hfind, if_neg hco]
  · intro hcond now2
    have hstep : checkinLogic rid now s =
        (replaceFirst (matchesId rid) { b with status := some "checked_in", updated_at := now } s,
          Except.ok { b with status := some "checked_in", updated_at := now }) := by
      simp only [checkinLogic, hfind, if_pos (canCheckin_iff.mpr hcond)]
    rw [hstep]
    have hfind2 : findReservationById
        (replaceFirst (matchesId rid) { b with status := some "checked_in", updated_at := now } s)
        rid = some { b with status := some "checked_in", updated_at := now } :=
      find?_replaceFirst hfind hmb
    have hcan2 : ¬ canCheckin ({ b with status := some "checked_in", updated_at := now } : Booking).status = true := by
      show ¬ canCheckin (some "checked_in") = true
      decide
    simp only [checkinLogic, hfind2, if_neg hcan2]

/-- Witness for C5: checking in a reserved booking succeeds, a second
checkin fails InvalidState, and checkout of the still-reserved sibling
fails InvalidState. -/
theorem c5_witness :
    (checkinLogic "x" "t1" [sampleBooking "x" "suite" 0 2 (some "reserved") false]).2 =
      Except.ok { sampleBooking "x" "suite" 0 2 (some "reserved") false with
        status := some "checked_in", updated_at := "t1" } ∧
    (checkinLogic "x" "t2"
      (checkinLogic "x" "t1" [sampleBooking "x" "suite" 0 2 (some "reserved") false]).1).2 =
      Except.error ApiErr.invalidState ∧
    checkoutLogic "x" "t1" [sampleBooking "x" "suite" 0 2 (some "reserved") false] =
      ([sampleBooking "x" "suite" 0 2 (some "reserved") false], Except.error ApiErr.invalidState) := by
  have h := c5_checkin_checkout_states
    [sampleBooking "x" "suite" 0 2 (some "reserved") false] "x" "t1"
    (sampleBooking "x" "suite" 0 2 (some "reserved") false) (by decide)
  refine ⟨?_, h.2.2.2.2.2.2.2 (Or.inl rfl) "t2", h.2.2.2.2.2.1 (by decide)⟩
  have hs := h.2.1 (Or.inl rfl)
  rw [hs]

/-! Claim C6. -/

/-- C6 (counterexample): as stated the claim is false.  The update
dictionary in `update_reservation_logic` does not include `property_id` or
`profile_id`, so a successful update keeps the stored values ("HOTEL1",
null) instead of the request's values ("OTHER", "p9"). -/
theorem c6_counterexample : ¬ C6Claim := by
  intro h
  have hc := h [sampleBooking "x" "suite" 0 2 (some "booked") false] "x" "t1"
    (sampleParsed "OTHER" (some "p9") "suite" 0 3 (some "booked"))
    [applyResUpdate (sampleBooking "x" "suite" 0 2 (some "booked") false)
      (sampleParsed "OTHER" (some "p9") "suite" 0 3 (some "booked")) "t1"]
    (applyResUpdate (sampleBooking "x" "suite" 0 2 (some "booked") false)
      (sampleParsed "OTHER" (some "p9") "suite" 0 3 (some "booked")) "t1")
    (sampleBooking "x" "suite" 0 2 (some "booked") false)
    (by decide) rfl
  exact absurd hc.1 (by decide)

/-- C6 (amended): a successful update overwrites the mutable fields
guest_name, room_type, dates, rate/source/market codes, guarantee fields,
amount, currency and guest count with the request's values, while
`property_id` and `profile_id` (as well as both id aliases) retain their
stored values; `status` follows the null-preserving rule; the original
`created_at` is preserved and `updated_at` is newly stamped. -/
theorem c6_update_fields (s : List Booking) (rid now : String) (r : Reservation)
    (s' : List Booking) (updated b : Booking)
    (hfind : findReservationById s rid = some b)
    (hupd : updateReservationLogic rid now r s = (s', .ok updated)) :
    updated.property_id = b.property_id ∧ updated.profile_id = b.profile_id ∧
    updated.id = b.id ∧ updated.reservation_id = b.reservation_id ∧
    updated.guest_name = r.guest_name ∧ updated.room_type = r.room_type ∧
    updated.check_in = r.arrival_date ∧ updated.check_out = r.departure_date ∧
    updated.rate_plan_code = r.rate_plan_code ∧ updated.source_code = r.source_code ∧
    updated.market_code = r.market_code ∧ updated.guaranteed = r.guaranteed ∧
    updated.guarantee_type = r.guarantee_type ∧ updated.total_amount = r.total_amount ∧
    updated.currency = r.currency ∧ updated.guest_count = r.guest_count ∧
    updated.status = pyOrStr r.status b.status ∧
    updated.created_at = b.created_at ∧ updated.updated_at = now := by
  unfold updateReservationLogic at hupd
  obtain ⟨l₁, b₀, l₂, hsp, hnm, hmb, hg, hueq, hl⟩ := updateGo_ok hupd
  have hfind2 : findReservationById s rid = some b₀ := by
    rw [hsp]
    exact find?_append_cons l₂ hnm hmb
  rw [hfind] at hfind2
  injection hfind2 with hbb
  subst hbb
  rw [hueq, applyResUpdate_eq]
  exact ⟨rfl, rfl, rfl, rfl, rfl, rfl, rfl, rfl, rfl, rfl, rfl, rfl, rfl, rfl, rfl,
    rfl, rfl, rfl, rfl⟩

/-- Witness for C6: updating a reservation stored with property "HOTEL1"
using a request carrying property "OTHER" keeps property "HOTEL1", while
the dates are overwritten. -/
theorem c6_witness :
    (applyResUpdate (sampleBooking "x" "suite" 0 2 (some "booked") false)
      (sampleParsed "OTHER" (some "p9") "suite" 0 3 (some "booked")) "t1").property_id = "HOTEL1" ∧
    (applyResUpdate (sampleBooking "x" "suite" 0 2 (some "booked") false)
      (sampleParsed "OTHER" (some "p9") "suite" 0 3 (some "booked")) "t1").check_out = 3 := by
  have h := c6_update_fields [sampleBooking "x" "suite" 0 2 (some "booked") false] "x" "t1"
    (sampleParsed "OTHER" (some "p9") "suite" 0 3 (some "booked"))
    [applyResUpdate (sampleBooking "x" "suite" 0 2 (some "booked") false)
      (sampleParsed "OTHER" (some "p9") "suite" 0 3 (some "booked")) "t1"]
    (applyResUpdate (sampleBooking "x" "suite" 0 2 (some "booked") false)
      (sampleParsed "OTHER" (some "p9") "suite" 0 3 (some "booked")) "t1")
    (sampleBooking "x" "suite" 0 2 (some "booked") false)
    (by decide) rfl
  exact ⟨h.1.trans rfl, h.2.2.2.2.2.2.2.1.trans rfl⟩

/-! Claim C7. -/

/-- C7 (counterexample): as stated the claim is false.  The stored record
renames the submitted `arrival_date`/`departure_date` to
`check_in`/`check_out`, so the fetched record carries no `arrival_date`
key. -/
theorem c7_counterexample : ¬ C7Claim := by
  intro h
  obtain ⟨fetched, hfind, hrest⟩ := h (sampleReservationReq "suite" 0 2 none)
    (sampleParsed "HOTEL1" none "suite" 0 2 (some "reserved")) "a" "t1" []
    [mappedReservation "a" "t1" (sampleParsed "HOTEL1" none "suite" 0 2 (some "reserved"))]
    (mappedReservation "a" "t1" (sampleParsed "HOTEL1" none "suite" 0 2 (some "reserved")))
    (by decide) (by decide) rfl
  have hev : findReservationById
      [mappedReservation "a" "t1" (sampleParsed "HOTEL1" none "suite" 0 2 (some "reserved"))] "a" =
      some (mappedReservation "a" "t1" (sampleParsed "HOTEL1" none "suite" 0 2 (some "reserved"))) := by
    decide
  rw [hev] at hfind
  injection hfind with hfm
  have harr := hrest.2.2.2.2.1
  rw [← hfm] at harr
  exact absurd harr (by decide)

/-- C7 (amended): creating a valid reservation with a fresh id and fetching
it by that id returns a record carrying every submitted field value — with
`arrival_date` and `departure_date` exposed under the stored names
`check_in` and `check_out` — plus the server-assigned id under both
aliases and the `created_at`/`updated_at` timestamps. -/
theorem c7_create_roundtrip (req : ReservationReq) (r : Reservation) (rid now : String)
    (s s' : List Booking) (created : Booking)
    (hpar : parseReservation req = some r) (hf : FreshId rid s)
    (hc : createReservationLogic rid now r s = (s', .ok created)) :
    findReservationById s' rid = some created ∧
    serializeBooking created =
      [("id", JVal.jstr rid),
       ("reservation_id", JVal.jstr rid),
       ("profile_id", jOptStr r.profile_id),
       ("property_id", JVal.jstr r.property_id),
       ("guest_name", jOptStr r.guest_name),
       ("room_type", JVal.jstr r.room_type),
       ("check_in", JVal.jnat r.arrival_date),
       ("check_out", JVal.jnat r.departure_date),
       ("status", jOptStr r.status),
       ("rate_plan_code", jOptStr r.rate_plan_code),
       ("source_code", jOptStr r.source_code),
       ("market_code", jOptStr r.market_code),
       ("created_at", JVal.jstr now),
       ("updated_at", JVal.jstr now),
       ("guaranteed", JVal.jbool r.guaranteed),
       ("guarantee_type", jOptStr r.guarantee_type),
       ("total_amount", jOptRat r.total_amount),
       ("currency", jOptStr r.currency),
       ("guest_count", JVal.jint r.guest_count)] := by
  obtain ⟨hg, hcr, hs'⟩ := createReservationLogic_ok hc
  subst hcr hs'
  constructor
  · have hnone : ∀ x ∈ s, matchesId rid x = false := by
      intro x hx
      have hx2 := hf.2 x hx
      simp [matchesId, beq_eq_false_iff_ne.mpr hx2.1, beq_eq_false_iff_ne.mpr hx2.2]
    have hm : matchesId rid (mappedReservation rid now r) = true := by
      simp [matchesId, mappedReservation]
    exact find?_append_cons [] hnone hm
  · rfl

/-- Witness for C7: a concrete create followed by a fetch returns the
stored record with the dates under `check_in`/`check_out`. -/
theorem c7_witness :
    findReservationById
      [mappedReservation "a" "t1" (sampleParsed "HOTEL1" none "suite" 0 2 (some "reserved"))] "a" =
      some (mappedReservation "a" "t1" (sampleParsed "HOTEL1" none "suite" 0 2 (some "reserved"))) :=
  (c7_create_roundtrip (sampleReservationReq "suite" 0 2 none)
    (sampleParsed "HOTEL1" none "suite" 0 2 (some "reserved")) "a" "t1" []
    [mappedReservation "a" "t1" (sampleParsed "HOTEL1" none "suite" 0 2 (some "reserved"))]
    (mappedReservation "a" "t1" (sampleParsed "HOTEL1" none "suite" 0 2 (some "reserved")))
    (by decide) (by decide) rfl).1

/-! Claim C8. -/

/-- C8 (counterexample): as stated the claim is false for the `name` field.
Supplying only `first_name = "Bob"` makes the `ensure_display_name`
validator derive the display name "Bob", and `update_profile` forces that
derived name into the update, overwriting the stored name "Alice Smith"
even though `name` was absent from the request. -/
theorem c8_counterexample : ¬ C8Claim := by
  intro h
  have hc := h [sampleProfile "p1" (some "Alice Smith")] "p1" "t1"
    { emptyProfileReq with first_name := some (some "Bob") }
    [mergeProfile (sampleProfile "p1" (some "Alice Smith"))
      { emptyProfileReq with first_name := some (some "Bob") } "t1"]
    (mergeProfile (sampleProfile "p1" (some "Alice Smith"))
      { emptyProfileReq with first_name := some (some "Bob") } "t1")
    (sampleProfile "p1" (some "Alice Smith"))
    (by decide) rfl
  exact absurd (hc.2.2.1 rfl) (by decide)

/-- C8 (amended): a successful profile update merges exactly the fields
explicitly present in the request with non-null values; every absent field
keeps its prior value, except `preferences`, which is overwritten whenever
supplied (even when empty), and except `name`, which is additionally
overwritten by the display name derived from a supplied
`first_name`/`last_name` whenever that derived name is non-empty;
`updated_at` is newly stamped while `profile_id` and `created_at` are
preserved. -/
theorem c8_update_merge (ps : List StoredProfile) (pid now : String) (req : ProfileReq)
    (ps' : List StoredProfile) (merged ex : StoredProfile)
    (hfind : findProfileById ps pid = some ex)
    (hupd : updateProfile pid now req ps = (ps', .ok merged)) :
    merged.updated_at = now ∧ merged.created_at = ex.created_at ∧
    merged.profile_id = ex.profile_id ∧
    (req.first_name = none → merged.first_name = ex.first_name) ∧
    (∀ v, req.first_name = some (some v) → merged.first_name = some v) ∧
    (req.last_name = none → merged.last_name = ex.last_name) ∧
    (req.date_of_birth = none → merged.date_of_birth = ex.date_of_birth) ∧
    (req.preferred_language = none → merged.preferred_language = ex.preferred_language) ∧
    (req.vip_status = none → merged.vip_status = ex.vip_status) ∧
    (req.address = none → merged.address = ex.address) ∧
    (req.loyalty_info = none → merged.loyalty_info = ex.loyalty_info) ∧
    (req.emails = none → merged.emails = ex.emails) ∧
    (req.phones = none → merged.phones = ex.phones) ∧
    (∀ prefs, req.preferences = some prefs → merged.preferences = prefs) ∧
    (req.preferences = none → merged.preferences = ex.preferences) ∧
    (req.name = none → req.first_name = none → req.last_name = none →
      merged.name = ex.name) ∧
    (∀ v, req.name = some (some v) → v ≠ "" → merged.name = some v) := by
  simp only [updateProfile, hfind] at hupd
  injection hupd with h1 h2
  injection h2 with h3
  subst h3
  refine ⟨rfl, rfl, rfl, ?_, ?_, ?_, ?_, ?_, ?_, ?_, ?_, ?_, ?_, ?_, ?_, ?_, ?_⟩
  · intro hn; simp [mergeProfile, mergeOpt, hn]
  · intro v hv; simp [mergeProfile, mergeOpt, hv]
  · intro hn; simp [mergeProfile, mergeOpt, hn]
  · intro hn; simp [mergeProfile, mergeOpt, hn]
  · intro hn; simp [mergeProfile, mergeOpt, hn]
  · intro hn; simp [mergeProfile, mergeOpt, hn]
  · intro hn; simp [mergeProfile, mergeOpt, hn]
  · intro hn; simp [mergeProfile, mergeOpt, hn]
  · intro hn; simp [mergeProfile, hn]
  · intro hn; simp [mergeProfile, hn]
  · intro prefs hp; simp [mergeProfile, hp]
  · intro hn; simp [mergeProfile, hn]
  · intro h1 h2 h3
    have hi : " ".intercalate ([] : List String) = "" := rfl
    simp [mergeProfile, effName, h1, h2, h3, pyTruthy, hi]
  · intro v hv hne
    have hbe : (v == "") = false := beq_eq_false_iff_ne.mpr hne
    simp [mergeProfile, effName, hv, pyTruthy, hbe]

/-- Witness for C8: supplying only empty preferences overwrites them, while
the stored display name and first name survive untouched. -/
theorem c8_witness :
    (mergeProfile (sampleProfile "p1" (some "Alice"))
      { emptyProfileReq with preferences := some [("k", JVal.jstr "v")] } "t1").preferences =
      [("k", JVal.jstr "v")] ∧
    (mergeProfile (sampleProfile "p1" (some "Alice"))
      { emptyProfileReq with preferences := some [("k", JVal.jstr "v")] } "t1").name =
      some "Alice" := by
  have h := c8_update_merge [sampleProfile "p1" (some "Alice")] "p1" "t1"
    { emptyProfileReq with preferences := some [("k", JVal.jstr "v")] }
    [mergeProfile (sampleProfile "p1" (some "Alice"))
      { emptyProfileReq with preferences := some [("k", JVal.jstr "v")] } "t1"]
    (mergeProfile (sampleProfile "p1" (some "Alice"))
      { emptyProfileReq with preferences := some [("k", JVal.jstr "v")] } "t1")
    (sampleProfile "p1" (some "Alice"))
    (by decide) rfl
  obtain ⟨h1, h2, h3, h4, h5, h6, h7, h8, h9, h10, h11, h12, h13, h14, h15, h16, h17⟩ := h
  exact ⟨h14 _ rfl, h16 rfl rfl rfl⟩

/-! Claim C9. -/

/-- C9 (confirmed): failure atomicity.  Whenever a reservation or profile
operation fails (NotFound, Conflict or InvalidState), the store it operates
on is returned unchanged.  Each operation's embedding takes exactly the
store its source function reads or writes, mirroring that the reservation
functions never touch the `profiles` global and vice versa, so a failed
call leaves both stores exactly as they were. -/
theorem c9_failure_atomicity :
    (∀ rid now r s e, (createReservationLogic rid now r s).2 = .error e →
      (createReservationLogic rid now r s).1 = s) ∧
    (∀ rid now r s e, (updateReservationLogic rid now r s).2 = .error e →
      (updateReservationLogic rid now r s).1 = s) ∧
    (∀ rid s e, (deleteReservationLogic rid s).2 = .error e →
      (deleteReservationLogic rid s).1 = s) ∧
    (∀ rid now s e, (checkinLogic rid now s).2 = .error e →
      (checkinLogic rid now s).1 = s) ∧
    (∀ rid now s e, (checkoutLogic rid now s).2 = .error e →
      (checkoutLogic rid now s).1 = s) ∧
    (∀ uuid now req ps e, (createProfile uuid now req ps).2 = .error e →
      (createProfile uuid now req ps).1 = ps) ∧
    (∀ pid now req ps e, (updateProfile pid now req ps).2 = .error e →
      (updateProfile pid now req ps).1 = ps) ∧
    (∀ pid ps e, (deleteProfileLogic pid ps).2 = .error e →
      (deleteProfileLogic pid ps).1 = ps) := by
  refine ⟨?_, ?_, ?_, ?_, ?_, ?_, ?_, ?_⟩
  · intro rid now r s e h
    exact createReservationLogic_error (by rw [← h])
  · intro rid now r s e h
    have heq : updateGo s rid now r s =
        ((updateReservationLogic rid now r s).1, Except.error e) := by
      rw [← h]
      rfl
    exact updateGo_error heq
  · intro rid s e h
    cases hf : findReservationById s rid with
    | none => simp [deleteReservationLogic, hf]
    | some b => simp [deleteReservationLogic, hf] at h
  · intro rid now s e h
    cases hf : findReservationById s rid with
    | none => simp [checkinLogic, hf]
    | some b =>
      by_cases hcan : canCheckin b.status = true
      · simp [checkinLogic, hf, hcan] at h
      · simp [checkinLogic, hf, hcan]
  · intro rid now s e h
    cases hf : findReservationById s rid with
    | none => simp [checkoutLogic, hf]
    | some b =>
      by_cases hco : (b.status == some "checked_in") = true
      · simp [checkoutLogic, hf, hco] at h
      · simp [checkoutLogic, hf, hco]
  · intro uuid now req ps e h
    by_cases hc : (pyTruthy (req.profile_id.getD none) &&
        (findProfileById ps ((req.profile_id.getD none).getD "")).isSome) = true
    · simp [createProfile, hc]
    · simp [createProfile, hc] at h
  · intro pid now req ps e h
    cases hf : findProfileById ps pid with
    | none => simp [updateProfile, hf]
    | some ex => simp [updateProfile, hf] at h
  · intro pid ps e h
    cases hf : findProfileById ps pid with
    | none => simp [deleteProfileLogic, hf]
    | some p => simp [deleteProfileLogic, hf] at h

/-- Witness for C9: concrete failing calls of every operation leave their
stores untouched. -/
theorem c9_witness :
    (createReservationLogic "z" "t1" (sampleParsed "HOTEL1" none "attic" 0 2 (some "booked")) []).1 = [] ∧
    (updateReservationLogic "missing" "t1" (sampleParsed "HOTEL1" none "suite" 0 2 (some "booked")) []).1 = [] ∧
    (deleteReservationLogic "missing" []).1 = [] ∧
    (checkinLogic "missing" "t1" []).1 = [] ∧
    (checkoutLogic "missing" "t1" []).1 = [] ∧
    (createProfile "u" "t1" { emptyProfileReq with profile_id := some (some "p1") }
      [sampleProfile "p1" none]).1 = [sampleProfile "p1" none] ∧
    (updateProfile "missing" "t1" emptyProfileReq []).1 = [] ∧
    (deleteProfileLogic "missing" []).1 = [] := by
  refine ⟨?_, ?_, ?_, ?_, ?_, ?_, ?_, ?_⟩
  · exact c9_failure_atomicity.1 "z" "t1"
      (sampleParsed "HOTEL1" none "attic" 0 2 (some "booked")) [] .conflict rfl
  · exact c9_failure_atomicity.2.1 "missing" "t1"
      (sampleParsed "HOTEL1" none "suite" 0 2 (some "booked")) [] .notFound rfl
  · exact c9_failure_atomicity.2.2.1 "missing" [] .notFound rfl
  · exact c9_failure_atomicity.2.2.2.1 "missing" "t1" [] .notFound rfl
  · exact c9_failure_atomicity.2.2.2.2.1 "missing" "t1" [] .notFound rfl
  · exact c9_failure_atomicity.2.2.2.2.2.1 "u" "t1"
      { emptyProfileReq with profile_id := some (some "p1") }
      [sampleProfile "p1" none] .conflict rfl
  · exact c9_failure_atomicity.2.2.2.2.2.2.1 "missing" "t1" emptyProfileReq [] .notFound rfl
  · exact c9_failure_atomicity.2.2.2.2.2.2.2 "missing" [] .notFound rfl

/-! Claim C10. -/

/-- C10 (confirmed): a create request whose status is explicitly null is
stored with a null status; such a reservation is never counted by either
availability predicate (for both values of `includeTentative`), and both
checkin and checkout on it fail with an InvalidState (400) error, so it can
never transition. -/
theorem c10_null_status (req : ReservationReq) (r : Reservation) (rid now : String)
    (s s' : List Booking) (created : Booking)
    (hpar : parseReservation req = some r) (hst : req.status = some none)
    (hf : FreshId rid s)
    (hc : createReservationLogic rid now r s = (s', .ok created)) :
    created.status = none ∧
    (∀ rt q1 q2 ex inc, guardCounts rt q1 q2 ex inc created = false) ∧
    (∀ rt q1 q2 inc, availCounts rt q1 q2 inc created = false) ∧
    (∀ now2, checkinLogic rid now2 s' = (s', Except.error ApiErr.invalidState)) ∧
    (∀ now2, checkoutLogic rid now2 s' = (s', Except.error ApiErr.invalidState)) ∧
    ApiErr.statusCode ApiErr.invalidState = 400 := by
  have hrst : r.status = none := by
    rw [parseReservation_status hpar, hst]
    rfl
  obtain ⟨hg, hcr, hs'⟩ := createReservationLogic_ok hc
  subst hcr hs'
  have hstc : (mappedReservation rid now r).status = none := hrst
  have hfind : findReservationById (s ++ [mappedReservation rid now r]) rid =
      some (mappedReservation rid now r) := by
    have hnone : ∀ x ∈ s, matchesId rid x = false := by
      intro x hx
      have hx2 := hf.2 x hx
      simp [matchesId, beq_eq_false_iff_ne.mpr hx2.1, beq_eq_false_iff_ne.mpr hx2.2]
    have hm : matchesId rid (mappedReservation rid now r) = true := by
      simp [matchesId, mappedReservation]
    exact find?_append_cons [] hnone hm
  refine ⟨hstc, ?_, ?_, ?_, ?_, rfl⟩
  · intro rt q1 q2 ex inc
    simp [guardCounts, statusConsumes, statusInConsuming, hstc]
  · intro rt q1 q2 inc
    simp [availCounts, statusConsumes, statusInConsuming, hstc]
  · intro now2
    have hcan : ¬ canCheckin (mappedReservation rid now r).status = true := by
      rw [hstc]
      decide
    simp only [checkinLogic, hfind, if_neg hcan]
  · intro now2
    have hco : ¬ ((mappedReservation rid now r).status == some "checked_in") = true := by
      rw [hstc]
      decide
    simp only [checkoutLogic, hfind, if_neg hco]

/-- Witness for C10: a concrete create with explicit null status yields a
null-status record on which checkin fails InvalidState. -/
theorem c10_witness :
    (mappedReservation "a" "t1" (sampleParsed "HOTEL1" none "suite" 0 2 none)).status = none ∧
    checkinLogic "a" "t2"
      [mappedReservation "a" "t1" (sampleParsed "HOTEL1" none "suite" 0 2 none)] =
      ([mappedReservation "a" "t1" (sampleParsed "HOTEL1" none "suite" 0 2 none)],
        Except.error ApiErr.invalidState) := by
  have h := c10_null_status (sampleReservationReq "suite" 0 2 (some none))
    (sampleParsed "HOTEL1" none "suite" 0 2 none) "a" "t1" []
    [mappedReservation "a" "t1" (sampleParsed "HOTEL1" none "suite" 0 2 none)]
    (mappedReservation "a" "t1" (sampleParsed "HOTEL1" none "suite" 0 2 none))
    (by decide) rfl (by decide) rfl
  exact ⟨h.1, h.2.2.2.1 "t2"⟩

end MockApi
